import Mathlib

set_option maxRecDepth 10000

/-! Shallow embedding of the attribution and sponsorship-resolution engine of
the oss-credit-poc repository (src/models.py, src/contribution_analyzer.py,
src/sponsorship_checker.py).  Python strings are Lean `String`s, Python sets
and dicts become lists (dicts as insertion-ordered association lists), Python
integers become `Nat`/`Int`, and `None`-able values become `Option`. -/

/-- Python `s.lower()`: lowercase each character (ASCII case mapping, which
is the range the repository's identifiers live in). -/
def pyLower (s : String) : String := ⟨s.data.map Char.toLower⟩

/-- Python `s.startswith(pat)` read on char lists (`charsStart pat s`). -/
def charsStart : List Char → List Char → Bool
  | [], _ => true
  | _ :: _, [] => false
  | a :: as, b :: bs => a == b && charsStart as bs

/-- Python `pat in s` (substring containment) on char lists. -/
def charsHas (pat : List Char) : List Char → Bool
  | [] => pat.isEmpty
  | b :: bs => charsStart pat (b :: bs) || charsHas pat bs

/-- Python `s.endswith(pat)` on char lists: `pat` is a suffix of the list. -/
def charsEnd (pat : List Char) : List Char → Bool
  | [] => pat.isEmpty
  | b :: bs => (pat == b :: bs) || charsEnd pat bs

/-- Python `pat in s` on strings. -/
def strContains (s pat : String) : Bool := charsHas pat.data s.data

/-- Python `s.endswith(pat)` on strings. -/
def strEndsWith (s pat : String) : Bool := charsEnd pat.data s.data

/-- Python `s.startswith(pat)` on strings. -/
def strStartsWith (s pat : String) : Bool := charsStart pat.data s.data

/-- src/models.py `ContributionStats`: six named non-negative counters, all
defaulting to zero. -/
structure ContributionStats where
  commits : Nat := 0
  pull_requests_opened : Nat := 0
  pull_requests_merged : Nat := 0
  issues_opened : Nat := 0
  issue_comments : Nat := 0
  pr_review_comments : Nat := 0
deriving DecidableEq

/-- src/models.py `ContributionStats.__add__`: counter-wise sum. -/
def ContributionStats.add (a b : ContributionStats) : ContributionStats where
  commits := a.commits + b.commits
  pull_requests_opened := a.pull_requests_opened + b.pull_requests_opened
  pull_requests_merged := a.pull_requests_merged + b.pull_requests_merged
  issues_opened := a.issues_opened + b.issues_opened
  issue_comments := a.issue_comments + b.issue_comments
  pr_review_comments := a.pr_review_comments + b.pr_review_comments

instance : Add ContributionStats := ⟨ContributionStats.add⟩

/-- src/models.py `ContributionStats.total_activity`: every counter except
`pull_requests_merged`. -/
def ContributionStats.total_activity (s : ContributionStats) : Nat :=
  s.commits + s.pull_requests_opened + s.issues_opened +
    s.issue_comments + s.pr_review_comments

/-- src/contribution_analyzer.py `is_org_affiliated_by_email`.  A `None`
email at a call site is modelled by the caller passing `""`: Python's
`not email` test is true for both `None` and `""`. -/
def is_org_affiliated_by_email (email : String) (email_domain : String) : Bool :=
  if email = "" then false
  else
    let email_lower := pyLower email
    if strContains email_lower "noreply" && strContains email_lower "github.com" then
      false
    else
      strEndsWith email_lower ("@" ++ pyLower email_domain)

/-- Modelled from the spec (§4.1 tier 1, §8): the email-tier predicate holds
iff the email is non-empty, does not contain both "noreply" and "github.com"
as case-insensitive substrings, and its lowercased form ends with `"@"`
followed by the lowercased domain.  Stated separately from
`is_org_affiliated_by_email` so the two can be compared. -/
def email_matches_domain_spec (email domain : String) : Bool :=
  decide (email ≠ "") &&
  !(strContains (pyLower email) "noreply" && strContains (pyLower email) "github.com") &&
  strEndsWith (pyLower email) ("@" ++ pyLower domain)

/-- src/models.py `SponsorshipData`: `current` and `past` entity sets
(modelled as lists; the resolver only tests membership). -/
structure SponsorshipData where
  current : List String := []
  past : List String := []
deriving DecidableEq

/-- src/models.py `SponsorshipStatus`. -/
structure SponsorshipStatus where
  status : String
  entity : Option String := none
deriving DecidableEq

/-- The CHECK 2 loop of src/sponsorship_checker.py
`SponsorshipChecker.check_project_sponsorship`: walk the parsed funding
targets in list order; return on the first target found in `current` (then
in `past`), else fall through. -/
def fundingLoop (sp : SponsorshipData) : List String → Option SponsorshipStatus
  | [] => none
  | t :: ts =>
    if t ∈ sp.current then some ⟨"ACTIVE_VIA_MAINTAINER", some t⟩
    else if t ∈ sp.past then some ⟨"PAST_VIA_MAINTAINER", some t⟩
    else fundingLoop sp ts

/-- src/sponsorship_checker.py `SponsorshipChecker.check_project_sponsorship`.
The two gateway lookups are passed in explicitly: `funding` is the parsed and
normalized `github` entry of the repository's `.github/FUNDING.yml` (`none`
models a missing file, a read error, no parse result, or a missing `github`
key — the code's `try`/`except` plus the guards before the loop; a scalar
entry is the one-element list, a non-list non-string entry the empty list),
and `project_sponsors` is the result of `get_entity_sponsors(owner)` used by
CHECK 3.  `repo` only selects gateway data and is otherwise unused, as in
the source. -/
def check_project_sponsorship (owner repo org_name : String)
    (org_sponsorships : SponsorshipData)
    (funding : Option (List String))
    (project_sponsors : SponsorshipData) : SponsorshipStatus :=
  if owner ∈ org_sponsorships.current then ⟨"ACTIVE_DIRECT", some owner⟩
  else if owner ∈ org_sponsorships.past then ⟨"PAST_DIRECT", some owner⟩
  else
    match funding.bind (fundingLoop org_sponsorships) with
    | some st => st
    | none =>
      let org_name_lower := pyLower org_name
      let current_lower := project_sponsors.current.map pyLower
      let past_lower := project_sponsors.past.map pyLower
      if org_name_lower ∈ current_lower then ⟨"ACTIVE_CONFIRMED", some owner⟩
      else if org_name_lower ∈ past_lower then ⟨"PAST_CONFIRMED", some owner⟩
      else ⟨"NOT_SPONSORED", none⟩

/-- Modelled from the spec (§4.3 tier 2): for each declared funding target in
list order, current membership then past membership is tested, and the first
matching target wins.  Stated with `findSome?` so it can be compared with
the code's loop. -/
def funding_first_match_spec (sp : SponsorshipData) (targets : List String) :
    Option SponsorshipStatus :=
  targets.findSome? fun t =>
    if t ∈ sp.current then some ⟨"ACTIVE_VIA_MAINTAINER", some t⟩
    else if t ∈ sp.past then some ⟨"PAST_VIA_MAINTAINER", some t⟩
    else none

/-- src/contribution_analyzer.py `ContributionAnalyzer.is_org_affiliated`.
`org_members` models the lazily fetched, cached `get_org_members()` set of
lowercased logins (instance state passed explicitly).  Returns the Python
triple (is_affiliated, attribution_email, method). -/
def is_org_affiliated (org_members : List String) (username : Option String)
    (email : Option String) (email_domain : String) :
    Bool × Option String × Option String :=
  if is_org_affiliated_by_email (email.getD "") email_domain then
    (true, email, some "email")
  else
    match username with
    | some u =>
        if u ≠ "" ∧ pyLower u ∈ org_members then
          (true, some (u ++ "@" ++ email_domain), some "membership")
        else (false, none, none)
    | none => (false, none, none)

/-- A commit record as consumed by the analyzer loops: the truthiness of
`commit.get('commit')`, then `commit['commit']['author'].get('email')` and
`commit['author'].get('login')` (either may be absent). -/
structure CommitData where
  hasCommit : Bool := true
  authorEmail : Option String := none
  authorLogin : Option String := none
deriving DecidableEq

/-- A pull request as consumed by the PR loop of `analyze_contributions`.
Timestamps are modelled as integers carrying the order that
`datetime.fromisoformat` gives ISO-8601 strings; `merged` is the truthiness
of `pr.get('merged_at')`; `prCommits` is the gateway's
`get_pull_commits(owner, repo, number)` answer for this record. -/
structure PullRequestData where
  number : Option Nat := none
  updated_at : Option Int := none
  created_at : Option Int := none
  merged : Bool := false
  prCommits : List CommitData := []
deriving DecidableEq

/-- An issue as consumed by the issue loop: truthiness of
`issue.get('pull_request')` and `issue['user'].get('login')`. -/
structure IssueData where
  isPullRequest : Bool := false
  userLogin : Option String := none
deriving DecidableEq

/-- An issue comment or PR review comment: `comment['user'].get('login')`. -/
structure CommentData where
  userLogin : Option String := none
deriving DecidableEq

/-- The `contributions` dict: an insertion-ordered association list from
attribution key to stats, as Python dicts preserve insertion order. -/
abbrev ContribMap := List (String × ContributionStats)

/-- Dictionary lookup on the association list. -/
def findStats : ContribMap → String → Option ContributionStats
  | [], _ => none
  | (k', v) :: rest, k => if k' = k then some v else findStats rest k

/-- The idiom `if key not in contributions: contributions[key] =
ContributionStats()` followed by a counter update `f` on
`contributions[key]`: update the entry in place, or append a freshly
defaulted, updated entry. -/
def bump (m : ContribMap) (k : String)
    (f : ContributionStats → ContributionStats) : ContribMap :=
  match m with
  | [] => [(k, f {})]
  | (k', v) :: rest =>
    if k' = k then (k', f v) :: rest else (k', v) :: bump rest k f

/-- The COMMITS loop body of `analyze_contributions`: skip records without a
`commit` object, attribute through `is_org_affiliated`, and on success count
one commit under the attribution key. -/
def processCommit (org_members : List String) (email_domain : String)
    (m : ContribMap) (c : CommitData) : ContribMap :=
  if !c.hasCommit then m
  else
    match is_org_affiliated org_members c.authorLogin c.authorEmail email_domain with
    | (true, some k, _) => bump m k fun s => { s with commits := s.commits + 1 }
    | _ => m

/-- The inner commit scan of the PULL REQUESTS section: stop at the first
affiliated commit author; if the `"key:prNumber"` pair was not counted yet,
count one opened PR (plus one merged PR when the PR carries a `merged_at`)
and record the pair. -/
def processPRCommits (org_members : List String) (email_domain : String)
    (prNumber : Nat) (merged : Bool) (m : ContribMap) (counted : List String) :
    List CommitData → ContribMap × List String
  | [] => (m, counted)
  | c :: cs =>
    if !c.hasCommit then
      processPRCommits org_members email_domain prNumber merged m counted cs
    else
      match is_org_affiliated org_members c.authorLogin c.authorEmail email_domain with
      | (true, some k, _) =>
        let key := k ++ ":" ++ toString prNumber
        if key ∈ counted then (m, counted)
        else
          (bump m k fun s =>
            { s with
              pull_requests_opened := s.pull_requests_opened + 1,
              pull_requests_merged :=
                s.pull_requests_merged + (if merged then 1 else 0) },
           key :: counted)
      | _ => processPRCommits org_members email_domain prNumber merged m counted cs

/-- Python `o is not None and o < x`, the guarded timestamp comparisons of
the PR loop (`if updated_at: ... if updated_dt < since_dt`). -/
def optLt (o : Option Int) (x : Int) : Bool :=
  match o with
  | some v => decide (v < x)
  | none => false

/-- The PULL REQUESTS loop of `analyze_contributions`: stop at the first PR
updated before the window (the feed is sorted by update time), skip PRs
created before the window and records without a usable number (Python's
`if not pr_number` also drops a zero number), otherwise scan the PR's
commits. -/
def processPRs (org_members : List String) (email_domain : String)
    (since : Int) (m : ContribMap) (counted : List String) :
    List PullRequestData → ContribMap × List String
  | [] => (m, counted)
  | pr :: rest =>
    if optLt pr.updated_at since then (m, counted)
    else if optLt pr.created_at since then
      processPRs org_members email_domain since m counted rest
    else
      match pr.number with
      | none => processPRs org_members email_domain since m counted rest
      | some n =>
        if n = 0 then processPRs org_members email_domain since m counted rest
        else
          let r := processPRCommits org_members email_domain n pr.merged m
            counted pr.prCommits
          processPRs org_members email_domain since r.1 r.2 rest

/-- The ISSUES loop body: skip PRs surfacing in the issues feed and blank
logins, look the author's public email up, then attribute and count one
opened issue. -/
def processIssue (org_members : List String) (email_domain : String)
    (userEmail : String → Option String) (m : ContribMap)
    (i : IssueData) : ContribMap :=
  if i.isPullRequest then m
  else
    match i.userLogin with
    | none => m
    | some u =>
      if u = "" then m
      else
        match is_org_affiliated org_members (some u) (userEmail u) email_domain with
        | (true, some k, _) =>
          bump m k fun s => { s with issues_opened := s.issues_opened + 1 }
        | _ => m

/-- The ISSUE COMMENTS loop body. -/
def processIssueComment (org_members : List String) (email_domain : String)
    (userEmail : String → Option String) (m : ContribMap)
    (c : CommentData) : ContribMap :=
  match c.userLogin with
  | none => m
  | some u =>
    if u = "" then m
    else
      match is_org_affiliated org_members (some u) (userEmail u) email_domain with
      | (true, some k, _) =>
        bump m k fun s => { s with issue_comments := s.issue_comments + 1 }
      | _ => m

/-- The PR REVIEW COMMENTS loop body. -/
def processReviewComment (org_members : List String) (email_domain : String)
    (userEmail : String → Option String) (m : ContribMap)
    (c : CommentData) : ContribMap :=
  match c.userLogin with
  | none => m
  | some u =>
    if u = "" then m
    else
      match is_org_affiliated org_members (some u) (userEmail u) email_domain with
      | (true, some k, _) =>
        bump m k fun s => { s with pr_review_comments := s.pr_review_comments + 1 }
      | _ => m

/-- src/contribution_analyzer.py `ContributionAnalyzer.analyze_contributions`.
Gateway answers are passed as data: the commit list, the pull requests (each
carrying its `get_pull_commits` answer), the issues, issue comments and
review comments returned for the query window, plus the cached
`get_user_email` lookup as a function.  `since` is the parsed `since_date`;
all five sections accumulate into one `contributions` dict. -/
def analyze_contributions (org_members : List String)
    (userEmail : String → Option String) (email_domain : String) (since : Int)
    (commits : List CommitData) (prs : List PullRequestData)
    (issues : List IssueData) (issue_comments : List CommentData)
    (review_comments : List CommentData) : ContribMap :=
  let m1 := commits.foldl (processCommit org_members email_domain) []
  let r := processPRs org_members email_domain since m1 [] prs
  let m2 := issues.foldl (processIssue org_members email_domain userEmail) r.1
  let m3 := issue_comments.foldl
    (processIssueComment org_members email_domain userEmail) m2
  review_comments.foldl
    (processReviewComment org_members email_domain userEmail) m3

/-- The invariant of one stats record: the merged-PR counter never exceeds
the opened-PR counter. -/
def mergedLeOpened (s : ContributionStats) : Prop :=
  s.pull_requests_merged ≤ s.pull_requests_opened

/-- The invariant over a whole contributions map. -/
def mapMergedLeOpened (m : ContribMap) : Prop :=
  ∀ k s, findStats m k = some s → mergedLeOpened s

/-- src/models.py `Package`. -/
structure Package where
  name : String
  ecosystem : String
  owner : String
  repo : String
  dependents_count : Nat
  repository_url : String
deriving DecidableEq

/-- src/models.py `PackageResult`. -/
structure PackageResult where
  package : Package
  contributors : ContribMap
  total_contributions : ContributionStats
  unique_contributor_count : Nat
  sponsorship : SponsorshipStatus
deriving DecidableEq

/-- src/models.py `PackageResult.has_contributions`: `total_activity() > 0`. -/
def PackageResult.has_contributions (r : PackageResult) : Bool :=
  decide (r.total_contributions.total_activity > 0)

/-- src/models.py `PackageResult.has_active_sponsorship`: Python's
`"ACTIVE" in self.sponsorship.status`, substring containment. -/
def PackageResult.has_active_sponsorship (r : PackageResult) : Bool :=
  strContains r.sponsorship.status "ACTIVE"

/-- src/models.py `PackageResult.engagement_tier`. -/
def PackageResult.engagement_tier (r : PackageResult) : String :=
  let has_contrib := r.has_contributions
  let has_sponsor := r.has_active_sponsorship
  if has_contrib && has_sponsor then "FULL_ENGAGEMENT"
  else if has_contrib && !has_sponsor then "CODE_ONLY"
  else if !has_contrib && has_sponsor then "MONEY_ONLY"
  else "NO_ENGAGEMENT"

/-- Modelled from the spec (§3, §4.4): the deterministic 2×2 engagement
table over the two derived booleans. -/
def engagement_tier_spec (has_contrib has_sponsor : Bool) : String :=
  match has_contrib, has_sponsor with
  | true, true => "FULL_ENGAGEMENT"
  | true, false => "CODE_ONLY"
  | false, true => "MONEY_ONLY"
  | false, false => "NO_ENGAGEMENT"

/-- The closed enumeration of resolver status codes (spec glossary, the
codes `check_project_sponsorship` can produce). -/
def sponsorship_status_codes : List String :=
  ["ACTIVE_DIRECT", "PAST_DIRECT", "ACTIVE_VIA_MAINTAINER",
   "PAST_VIA_MAINTAINER", "ACTIVE_CONFIRMED", "PAST_CONFIRMED",
   "NOT_SPONSORED"]

/-- C4: the email-domain affiliation predicate returns true iff the email is
non-empty, is not a "noreply"+"github.com" privacy address (case-insensitive
substrings), and its lowercased form ends with "@" plus the lowercased
domain; any address containing both markers in any case yields false
regardless of the domain argument. -/
theorem c4_email_domain_predicate (email domain : String) :
    (is_org_affiliated_by_email email domain = email_matches_domain_spec email domain)
    ∧ (strContains (pyLower email) "noreply" = true →
        strContains (pyLower email) "github.com" = true →
        is_org_affiliated_by_email email domain = false) := by
  constructor
  · by_cases he : email = ""
    · subst he
      simp [is_org_affiliated_by_email, email_matches_domain_spec]
    · cases hc : (strContains (pyLower email) "noreply" &&
          strContains (pyLower email) "github.com") <;>
        simp [is_org_affiliated_by_email, email_matches_domain_spec, he, hc]
  · intro h1 h2
    by_cases he : email = ""
    · simp [is_org_affiliated_by_email, he]
    · simp [is_org_affiliated_by_email, he, h1, h2]

/-- Witness for C4: a privacy-masked address in mixed case is rejected even
when the domain argument itself matches the address's domain. -/
theorem c4_witness :
    is_org_affiliated_by_email "NoReply@GitHub.com" "github.com" = false :=
  (c4_email_domain_predicate "NoReply@GitHub.com" "github.com").2
    (by decide) (by decide)

/-- C8: `total_activity` sums every counter except `pull_requests_merged`;
equivalently, adding the merged counter back gives the sum of all six
counters. -/
theorem c8_total_activity_sum (s : ContributionStats) :
    s.total_activity
        = s.commits + s.pull_requests_opened + s.issues_opened
            + s.issue_comments + s.pr_review_comments
    ∧ s.total_activity + s.pull_requests_merged
        = s.commits + s.pull_requests_opened + s.pull_requests_merged
            + s.issues_opened + s.issue_comments + s.pr_review_comments := by
  unfold ContributionStats.total_activity
  omega

/-- The `Add` instance computed field by field, for rewriting. -/
theorem contributionStats_add_def (a b : ContributionStats) :
    a + b = ⟨a.commits + b.commits,
      a.pull_requests_opened + b.pull_requests_opened,
      a.pull_requests_merged + b.pull_requests_merged,
      a.issues_opened + b.issues_opened,
      a.issue_comments + b.issue_comments,
      a.pr_review_comments + b.pr_review_comments⟩ := rfl

/-- C9: `ContributionStats` addition is associative and commutative, and the
all-zero default value is a right identity. -/
theorem c9_add_assoc_comm_zero (a b c : ContributionStats) :
    (a + b) + c = a + (b + c) ∧ a + b = b + a
      ∧ a + ({} : ContributionStats) = a := by
  cases a; cases b; cases c
  refine ⟨?_, ?_, ?_⟩ <;>
    · simp only [contributionStats_add_def, ContributionStats.mk.injEq]
      omega

/-- C2: membership of `owner` in the current direct-sponsorship set forces
`ACTIVE_DIRECT` with entity `owner`, whatever the past set, the funding
targets, or the owner's reverse sponsor list hold. -/
theorem c2_direct_tier_shortcircuits (owner repo org_name : String)
    (org_sponsorships : SponsorshipData) (funding : Option (List String))
    (project_sponsors : SponsorshipData)
    (h : owner ∈ org_sponsorships.current) :
    check_project_sponsorship owner repo org_name org_sponsorships funding
        project_sponsors = ⟨"ACTIVE_DIRECT", some owner⟩ := by
  simp [check_project_sponsorship, h]

/-- Witness for C2: the owner sits in both direct sets, a funding target and
the reverse sponsor list would also match, yet `ACTIVE_DIRECT` is returned. -/
theorem c2_witness :
    check_project_sponsorship "acme" "repo" "MyOrg"
        ⟨["acme", "m"], ["acme"]⟩ (some ["m"]) ⟨["myorg"], []⟩
      = ⟨"ACTIVE_DIRECT", some "acme"⟩ :=
  c2_direct_tier_shortcircuits "acme" "repo" "MyOrg"
    ⟨["acme", "m"], ["acme"]⟩ (some ["m"]) ⟨["myorg"], []⟩ (by decide)

/-- The code's CHECK 2 loop is the spec's first-match scan. -/
theorem fundingLoop_eq_spec (sp : SponsorshipData) (targets : List String) :
    fundingLoop sp targets = funding_first_match_spec sp targets := by
  induction targets with
  | nil => rfl
  | cons t ts ih =>
    by_cases hc : t ∈ sp.current
    · simp [fundingLoop, funding_first_match_spec, hc]
    · by_cases hp : t ∈ sp.past <;>
        simp [fundingLoop, funding_first_match_spec, hc, hp, ih]

/-- C5: with the direct tier failed, the funding tier scans the targets in
list order, current before past for each target, first match winning; a
first-position target only in `past` yields `PAST_VIA_MAINTAINER` with that
target as entity; an empty funding list behaves exactly like an absent one. -/
theorem c5_funding_tier_order (owner repo org_name t : String)
    (sp project_sponsors : SponsorshipData) (targets ts : List String)
    (h1 : owner ∉ sp.current) (h2 : owner ∉ sp.past) :
    (check_project_sponsorship owner repo org_name sp (some targets)
        project_sponsors
      = (funding_first_match_spec sp targets).getD
          (check_project_sponsorship owner repo org_name sp none
            project_sponsors))
    ∧ (t ∈ sp.past → t ∉ sp.current →
        check_project_sponsorship owner repo org_name sp (some (t :: ts))
            project_sponsors
          = ⟨"PAST_VIA_MAINTAINER", some t⟩)
    ∧ (check_project_sponsorship owner repo org_name sp (some [])
          project_sponsors
        = check_project_sponsorship owner repo org_name sp none
            project_sponsors) := by
  refine ⟨?_, ?_, ?_⟩
  · rw [check_project_sponsorship, check_project_sponsorship]
    simp only [h1, h2, if_false, Option.bind, fundingLoop_eq_spec]
    cases funding_first_match_spec sp targets <;> simp
  · intro hp hc
    rw [check_project_sponsorship]
    simp [h1, h2, Option.bind, fundingLoop, hp, hc]
  · rw [check_project_sponsorship, check_project_sponsorship]
    simp [h1, h2, Option.bind, fundingLoop]

/-- Witness for C5: owner outside both direct sets, one funding target that
is a past sponsorship — `PAST_VIA_MAINTAINER` for that target. -/
theorem c5_witness :
    check_project_sponsorship "owner1" "repo" "org"
        ⟨["other"], ["maintainerX"]⟩ (some ["maintainerX"]) ⟨[], []⟩
      = ⟨"PAST_VIA_MAINTAINER", some "maintainerX"⟩ :=
  (c5_funding_tier_order "owner1" "repo" "org" "maintainerX"
      ⟨["other"], ["maintainerX"]⟩ ⟨[], []⟩ [] [] (by decide)
      (by decide)).2.1 (by decide) (by decide)

/-- C6: once the direct and funding tiers both fail, the reverse tier tests
the lowercased organization name against the lowercased sponsor sets of the
owner: current match gives `ACTIVE_CONFIRMED` (entity owner), otherwise a
past match gives `PAST_CONFIRMED` (entity owner), otherwise `NOT_SPONSORED`
with no entity. -/
theorem c6_reverse_tier_case_insensitive (owner repo org_name : String)
    (sp project_sponsors : SponsorshipData) (funding : Option (List String))
    (h1 : owner ∉ sp.current) (h2 : owner ∉ sp.past)
    (h3 : funding.bind (fundingLoop sp) = none) :
    (pyLower org_name ∈ project_sponsors.current.map pyLower →
        check_project_sponsorship owner repo org_name sp funding
            project_sponsors = ⟨"ACTIVE_CONFIRMED", some owner⟩)
    ∧ (pyLower org_name ∉ project_sponsors.current.map pyLower →
        pyLower org_name ∈ project_sponsors.past.map pyLower →
        check_project_sponsorship owner repo org_name sp funding
            project_sponsors = ⟨"PAST_CONFIRMED", some owner⟩)
    ∧ (pyLower org_name ∉ project_sponsors.current.map pyLower →
        pyLower org_name ∉ project_sponsors.past.map pyLower →
        check_project_sponsorship owner repo org_name sp funding
            project_sponsors = ⟨"NOT_SPONSORED", none⟩) := by
  refine ⟨?_, ?_, ?_⟩
  · intro hcur
    rw [check_project_sponsorship, h3]
    simp_all
  · intro hcur hpast
    rw [check_project_sponsorship, h3]
    simp_all
  · intro hcur hpast
    have hc' : ¬∃ a ∈ project_sponsors.current, pyLower a = pyLower org_name := by
      simpa [List.mem_map] using hcur
    have hp' : ¬∃ a ∈ project_sponsors.past, pyLower a = pyLower org_name := by
      simpa [List.mem_map] using hpast
    rw [check_project_sponsorship, h3]
    simp [h1, h2, hc', hp']

/-- Witness for C6: reverse sponsor list holds `"MYORG"`, operator typed
`"myorg"` — the case-insensitive comparison confirms the sponsorship. -/
theorem c6_witness :
    check_project_sponsorship "alice" "repo" "myorg"
        ⟨[], []⟩ none ⟨["MYORG"], []⟩
      = ⟨"ACTIVE_CONFIRMED", some "alice"⟩ :=
  (c6_reverse_tier_case_insensitive "alice" "repo" "myorg"
      ⟨[], []⟩ ⟨["MYORG"], []⟩ none (by decide) (by decide) rfl).1 (by decide)

/-- C3: the membership fallback of `is_org_affiliated` is only reachable when
the email tier fails — a matching email forces the literal email as
attribution key even when the lowercased username is an org member; a
membership-only match synthesizes `username@domain` keeping the username's
casing; and when neither tier matches the result is (false, none, none). -/
theorem c3_membership_fallback_only_after_email (org_members : List String)
    (u e email_domain : String) :
    (is_org_affiliated_by_email e email_domain = true →
        is_org_affiliated org_members (some u) (some e) email_domain
          = (true, some e, some "email"))
    ∧ (is_org_affiliated_by_email e email_domain = false → u ≠ "" →
        pyLower u ∈ org_members →
        is_org_affiliated org_members (some u) (some e) email_domain
          = (true, some (u ++ "@" ++ email_domain), some "membership"))
    ∧ (is_org_affiliated_by_email e email_domain = false →
        (u = "" ∨ pyLower u ∉ org_members) →
        is_org_affiliated org_members (some u) (some e) email_domain
          = (false, none, none)) := by
  refine ⟨?_, ?_, ?_⟩
  · intro hmail
    simp [is_org_affiliated, hmail]
  · intro hmail hu hm
    simp [is_org_affiliated, hmail, hu, hm]
  · intro hmail hneg
    rcases hneg with hu | hm
    · simp [is_org_affiliated, hmail, hu]
    · by_cases hu : u = "" <;> simp [is_org_affiliated, hmail, hu, hm]

/-- Witness for C3: `Bob` is an org member and his email also matches the
domain — the literal email wins over the synthesized key. -/
theorem c3_witness :
    is_org_affiliated ["bob"] (some "Bob") (some "Bob@Company.com") "company.com"
      = (true, some "Bob@Company.com", some "email") :=
  (c3_membership_fallback_only_after_email ["bob"] "Bob" "Bob@Company.com"
      "company.com").1 (by decide)

/-- Counterexample to C1 as stated: a commit whose git author email does not
match the organization domain is still counted — through the
organization-membership fallback tier, under the synthesized key. -/
theorem c1_counterexample :
    findStats
        (analyze_contributions ["bob"] (fun _ => none) "company.com" 0
          [{ hasCommit := true, authorEmail := some "bob@other.com",
             authorLogin := some "bob" }] [] [] [] [])
        "bob@company.com"
      = some { commits := 1 }
    ∧ is_org_affiliated_by_email "bob@other.com" "company.com" = false := by
  exact ⟨by decide, by decide⟩

/-- C1 amended: commits go through the same two-tier attribution as the
other activity kinds — a commit is counted under the literal email when the
email tier matches, under the synthesized membership key when only the
membership tier matches, and not at all when neither tier matches. -/
theorem c1_amended_commits_two_tier (org_members : List String)
    (userEmail : String → Option String) (email_domain : String) (since : Int)
    (e u : String) :
    (is_org_affiliated_by_email e email_domain = true →
        analyze_contributions org_members userEmail email_domain since
            [⟨true, some e, some u⟩] [] [] [] []
          = [(e, { commits := 1 })])
    ∧ (is_org_affiliated_by_email e email_domain = false → u ≠ "" →
        pyLower u ∈ org_members →
        analyze_contributions org_members userEmail email_domain since
            [⟨true, some e, some u⟩] [] [] [] []
          = [(u ++ "@" ++ email_domain, { commits := 1 })])
    ∧ (is_org_affiliated_by_email e email_domain = false →
        pyLower u ∉ org_members →
        analyze_contributions org_members userEmail email_domain since
            [⟨true, some e, some u⟩] [] [] [] []
          = []) := by
  refine ⟨?_, ?_, ?_⟩
  · intro hmail
    simp [analyze_contributions, processPRs, processCommit, is_org_affiliated,
      hmail, bump]
  · intro hmail hu hm
    simp [analyze_contributions, processPRs, processCommit, is_org_affiliated,
      hmail, hu, hm, bump]
  · intro hmail hm
    by_cases hu : u = "" <;>
      simp [analyze_contributions, processPRs, processCommit, is_org_affiliated,
        hmail, hu, hm, bump]

/-- Witness for C1's amended statement: the membership-tier case, a commit
by org member `Bob` with a non-matching email. -/
theorem c1_witness :
    analyze_contributions ["bob"] (fun _ => none) "company.com" 0
        [⟨true, some "alice@other.com", some "Bob"⟩] [] [] [] []
      = [("Bob@company.com", { commits := 1 })] :=
  (c1_amended_commits_two_tier ["bob"] (fun _ => none) "company.com" 0
      "alice@other.com" "Bob").2.1 (by decide) (by decide) (by decide)

/-- Lookup after `bump`: the bumped key now holds `f` of its old stats (or
of the default), every other key is untouched. -/
theorem findStats_bump (m : ContribMap) (k k' : String)
    (f : ContributionStats → ContributionStats) :
    findStats (bump m k f) k'
      = if k = k' then some (f ((findStats m k).getD {}))
        else findStats m k' := by
  induction m with
  | nil => simp [bump, findStats]
  | cons kv rest ih =>
    obtain ⟨a, v⟩ := kv
    by_cases hak : a = k
    · subst hak
      by_cases hk' : a = k' <;> simp [bump, findStats, hk']
    · by_cases hk' : a = k'
      · subst hk'
        have : ¬k = a := fun h => hak h.symm
        simp [bump, findStats, hak, this]
      · simp [bump, findStats, hak, hk', ih]

/-- `bump` keeps the map invariant when the update keeps the record
invariant. -/
theorem bump_keeps_inv (m : ContribMap) (k : String)
    (f : ContributionStats → ContributionStats)
    (hf : ∀ s, mergedLeOpened s → mergedLeOpened (f s))
    (hm : mapMergedLeOpened m) : mapMergedLeOpened (bump m k f) := by
  intro k' s h
  rw [findStats_bump] at h
  by_cases hk : k = k'
  · rw [if_pos hk, Option.some_inj] at h
    subst h
    apply hf
    cases hfind : findStats m k with
    | none => simp [hfind, mergedLeOpened]
    | some v => simpa [hfind] using hm k v hfind
  · rw [if_neg hk] at h
    exact hm k' s h

/-- Counter updates that leave both PR counters alone keep the record
invariant; the PR update adds at most one merged per opened. -/
theorem processCommit_keeps_inv (org_members : List String)
    (email_domain : String) (m : ContribMap) (c : CommitData)
    (hm : mapMergedLeOpened m) :
    mapMergedLeOpened (processCommit org_members email_domain m c) := by
  unfold processCommit
  split
  · exact hm
  · split
    · exact bump_keeps_inv _ _ _ (fun s hs => hs) hm
    · exact hm

/-- The PR-section counter update keeps the record invariant. -/
theorem prUpdate_keeps_inv (mg : Bool) (s : ContributionStats)
    (hs : mergedLeOpened s) :
    mergedLeOpened
      { s with
        pull_requests_opened := s.pull_requests_opened + 1,
        pull_requests_merged :=
          s.pull_requests_merged + (if mg then 1 else 0) } := by
  unfold mergedLeOpened at hs ⊢
  dsimp only
  split <;> omega

/-- The inner PR commit scan keeps the map invariant. -/
theorem processPRCommits_keeps_inv (org_members : List String)
    (email_domain : String) (prNumber : Nat) (merged : Bool)
    (cs : List CommitData) (m : ContribMap) (counted : List String)
    (hm : mapMergedLeOpened m) :
    mapMergedLeOpened
      (processPRCommits org_members email_domain prNumber merged m counted cs).1 := by
  induction cs generalizing m counted with
  | nil => simpa [processPRCommits] using hm
  | cons c cs ih =>
    rw [processPRCommits]
    split
    · exact ih m counted hm
    · split
      · dsimp only
        split
        · exact hm
        · exact bump_keeps_inv _ _ _ (prUpdate_keeps_inv merged) hm
      · exact ih m counted hm

/-- The PR loop keeps the map invariant. -/
theorem processPRs_keeps_inv (org_members : List String)
    (email_domain : String) (since : Int) (prs : List PullRequestData)
    (m : ContribMap) (counted : List String) (hm : mapMergedLeOpened m) :
    mapMergedLeOpened
      (processPRs org_members email_domain since m counted prs).1 := by
  induction prs generalizing m counted with
  | nil => simpa [processPRs] using hm
  | cons pr rest ih =>
    rw [processPRs]
    split
    · exact hm
    · split
      · exact ih m counted hm
      · split
        · exact ih m counted hm
        · split
          · exact ih m counted hm
          · exact ih _ _ (processPRCommits_keeps_inv _ _ _ _ _ m counted hm)

/-- The issue loop body keeps the map invariant. -/
theorem processIssue_keeps_inv (org_members : List String)
    (email_domain : String) (userEmail : String → Option String)
    (m : ContribMap) (i : IssueData) (hm : mapMergedLeOpened m) :
    mapMergedLeOpened (processIssue org_members email_domain userEmail m i) := by
  unfold processIssue
  split
  · exact hm
  · split
    · exact hm
    · split
      · exact hm
      · split
        · exact bump_keeps_inv _ _ _ (fun s hs => hs) hm
        · exact hm

/-- The issue-comment loop body keeps the map invariant. -/
theorem processIssueComment_keeps_inv (org_members : List String)
    (email_domain : String) (userEmail : String → Option String)
    (m : ContribMap) (c : CommentData) (hm : mapMergedLeOpened m) :
    mapMergedLeOpened
      (processIssueComment org_members email_domain userEmail m c) := by
  unfold processIssueComment
  split
  · exact hm
  · split
    · exact hm
    · split
      · exact bump_keeps_inv _ _ _ (fun s hs => hs) hm
      · exact hm

/-- The review-comment loop body keeps the map invariant. -/
theorem processReviewComment_keeps_inv (org_members : List String)
    (email_domain : String) (userEmail : String → Option String)
    (m : ContribMap) (c : CommentData) (hm : mapMergedLeOpened m) :
    mapMergedLeOpened
      (processReviewComment org_members email_domain userEmail m c) := by
  unfold processReviewComment
  split
  · exact hm
  · split
    · exact hm
    · split
      · exact bump_keeps_inv _ _ _ (fun s hs => hs) hm
      · exact hm

/-- Folding an invariant-keeping step keeps the map invariant. -/
theorem foldl_keeps_inv {α : Type} (step : ContribMap → α → ContribMap)
    (hstep : ∀ m x, mapMergedLeOpened m → mapMergedLeOpened (step m x))
    (l : List α) (m : ContribMap) (hm : mapMergedLeOpened m) :
    mapMergedLeOpened (l.foldl step m) := by
  induction l generalizing m with
  | nil => simpa using hm
  | cons x xs ih => exact ih _ (hstep m x hm)

/-- C10: every stats record in the mapping returned by
`analyze_contributions` has `pull_requests_merged ≤ pull_requests_opened`:
the merged counter is only ever incremented together with the opened
counter, and each PR is counted at most once per attribution key. -/
theorem c10_merged_le_opened (org_members : List String)
    (userEmail : String → Option String) (email_domain : String) (since : Int)
    (commits : List CommitData) (prs : List PullRequestData)
    (issues : List IssueData) (issue_comments : List CommentData)
    (review_comments : List CommentData) (k : String) (s : ContributionStats)
    (h : findStats
        (analyze_contributions org_members userEmail email_domain since
          commits prs issues issue_comments review_comments) k = some s) :
    s.pull_requests_merged ≤ s.pull_requests_opened := by
  have h0 : mapMergedLeOpened [] := by intro k s hks; simp [findStats] at hks
  have h1 := foldl_keeps_inv _ (processCommit_keeps_inv org_members email_domain)
    commits [] h0
  have h2 := processPRs_keeps_inv org_members email_domain since prs _ [] h1
  have h3 := foldl_keeps_inv _
    (processIssue_keeps_inv org_members email_domain userEmail) issues _ h2
  have h4 := foldl_keeps_inv _
    (processIssueComment_keeps_inv org_members email_domain userEmail)
    issue_comments _ h3
  have h5 := foldl_keeps_inv _
    (processReviewComment_keeps_inv org_members email_domain userEmail)
    review_comments _ h4
  exact h5 k s h

/-- Witness for C10: one merged PR by one affiliated author gives a record
with one opened and one merged PR, and the bound holds there. -/
theorem c10_witness :
    ContributionStats.pull_requests_merged
        ⟨0, 1, 1, 0, 0, 0⟩
      ≤ ContributionStats.pull_requests_opened ⟨0, 1, 1, 0, 0, 0⟩ :=
  c10_merged_le_opened ["bob"] (fun _ => none) "co.com" 0 []
    [{ number := some 1, merged := true,
       prCommits := [⟨true, some "a@co.com", none⟩] }] [] [] []
    "a@co.com" ⟨0, 1, 1, 0, 0, 0⟩ (by decide)

/-- Counterexample to C7 as stated: `has_active_sponsorship` tests substring
containment of "ACTIVE", not a begins-with condition — on a `PackageResult`
whose status code is "INACTIVE" the boolean is true although the code does
not begin with "ACTIVE". -/
theorem c7_counterexample :
    PackageResult.has_active_sponsorship
        { package := ⟨"p", "npm", "o", "r", 0, "u"⟩, contributors := [],
          total_contributions := {}, unique_contributor_count := 0,
          sponsorship := ⟨"INACTIVE", none⟩ } = true
    ∧ strStartsWith "INACTIVE" "ACTIVE" = false :=
  ⟨by decide, by decide⟩

/-- C7 amended: `engagement_tier` is the spec's 2×2 table of the two derived
booleans; `has_contributions` is true iff `total_activity > 0`; and
`has_active_sponsorship` is true iff "ACTIVE" occurs as a substring of the
status code — which, on the seven status codes the resolver produces,
coincides with beginning with "ACTIVE". -/
theorem c7_amended_engagement_tier (r : PackageResult) :
    (r.has_contributions = true ↔ 0 < r.total_contributions.total_activity)
    ∧ (r.has_active_sponsorship = strContains r.sponsorship.status "ACTIVE")
    ∧ r.engagement_tier
        = engagement_tier_spec r.has_contributions r.has_active_sponsorship
    ∧ (∀ st ∈ sponsorship_status_codes,
        strContains st "ACTIVE" = strStartsWith st "ACTIVE") := by
  refine ⟨?_, rfl, ?_, by decide⟩
  · simp [PackageResult.has_contributions]
  · cases hb : r.has_contributions <;> cases hs : r.has_active_sponsorship <;>
      simp [PackageResult.engagement_tier, engagement_tier_spec, hb, hs]

/-- Witness for C7's amended statement: on the produced code
"ACTIVE_DIRECT", substring containment and the begins-with test agree. -/
theorem c7_witness :
    strContains "ACTIVE_DIRECT" "ACTIVE" = strStartsWith "ACTIVE_DIRECT" "ACTIVE" :=
  (c7_amended_engagement_tier
      { package := ⟨"p", "npm", "o", "r", 0, "u"⟩, contributors := [],
        total_contributions := {}, unique_contributor_count := 0,
        sponsorship := ⟨"ACTIVE_DIRECT", some "o"⟩ }).2.2.2
    "ACTIVE_DIRECT" (by decide)
